import Mathlib

/-!
Shallow embedding of the bully-election MPI simulator core
(`src/node.hpp`, `src/logger.hpp`, `src/messages.hpp`, `src/failure.hpp`).

Conventions of the embedding:
* C++ `int` fields become `Int`; list lengths are `Nat` with explicit coercions.
* The two pseudo-random streams of a node (`std::uniform_real_distribution`
  draws and the peer-picking `std::uniform_int_distribution` draws) are
  modelled as explicit oracle lists carried in the state and consumed in
  program order; an exhausted uniform oracle yields the draw `1` (which is
  never strictly below a probability `< 1`) and an exhausted peer oracle
  yields the node's own rank.  No claim below depends on the exhausted case.
* `MPI_Send` is modelled by appending the message to the `wire` list;
  every `send_message` call is additionally recorded in the `sends` list
  together with the effective dropped flag, mirroring the call structure of
  the C++ code.  Inbound MPI traffic is modelled by an explicit inbox list
  handed to `drain_incoming`.
* `debug_print` writes to `std::cout` and to the per-tick debug buffer; only
  the buffer is modelled (the stream output is I/O).
-/

/-- Message types (`messages.hpp`, `enum class MsgType`). -/
inductive MsgType
  | HEARTBEAT
  | ELECTION
  | OK
  | COORDINATOR
  | PING
  | ACK
  | STATE_REPORT
deriving DecidableEq

/-- Fixed-size message payload (`messages.hpp`, `struct Message`). -/
structure Message where
  type : MsgType
  tick : Int
  src_uid : Int
  dst_uid : Int
  leader_uid : Int
  aux : Int
deriving DecidableEq

/-- Per-node state snapshot sent to the controller (`messages.hpp`,
`struct StateReport`). -/
structure StateReport where
  tick : Int
  uid : Int
  online : Int
  leader_uid : Int
  election_active : Int
  last_hb_tick : Int
deriving DecidableEq

/-- `logger.hpp`: maximum messages a node can buffer per tick for logging. -/
def MAX_MSG_EVENTS_PER_TICK : Nat := 32

/-- Event logged when a message is sent or received (`logger.hpp`,
`struct MessageEvent`).  `direction = false` means sent, `true` received,
matching the C++ `0 = sent, 1 = received` encoding. -/
structure MessageEvent where
  tick : Int
  type : MsgType
  src_uid : Int
  dst_uid : Int
  dropped : Bool
  direction : Bool
deriving DecidableEq

/-- Bounded per-tick event buffer (`logger.hpp`, `class MessageBuffer`).
The C++ fixed array with a `count_` cursor is modelled as the list of the
first `count_` entries. -/
structure MessageBuffer where
  events : List MessageEvent
deriving DecidableEq

/-- `MessageBuffer()` / `clear()`: an empty buffer. -/
def MessageBuffer.empty : MessageBuffer := ⟨[]⟩

/-- `MessageBuffer::count`. -/
def MessageBuffer.count (b : MessageBuffer) : Nat := b.events.length

/-- `MessageBuffer::add_event`: append an event, silently discarding it when
the buffer already holds `MAX_MSG_EVENTS_PER_TICK` events. -/
def MessageBuffer.add_event (b : MessageBuffer) (tick : Int) (type : MsgType)
    (src_uid dst_uid : Int) (dropped is_recv : Bool) : MessageBuffer :=
  if MAX_MSG_EVENTS_PER_TICK ≤ b.events.length then b
  else ⟨b.events ++ [⟨tick, type, src_uid, dst_uid, dropped, is_recv⟩]⟩

/-- `MessageBuffer::log_send`. -/
def MessageBuffer.log_send (b : MessageBuffer) (tick : Int) (m : Message)
    (dst_uid : Int) (dropped : Bool) : MessageBuffer :=
  b.add_event tick m.type m.src_uid dst_uid dropped false

/-- `MessageBuffer::log_recv`: receive events are always logged with
`dropped = false`. -/
def MessageBuffer.log_recv (b : MessageBuffer) (tick : Int) (m : Message) :
    MessageBuffer :=
  b.add_event tick m.type m.src_uid m.dst_uid false true

/-- Node algorithm parameters (`node.hpp`, `struct NodeConfig`). -/
structure NodeConfig where
  hb_period_ticks : Int := 1
  hb_timeout_ticks : Int := 3
  election_timeout_ticks : Int := 3
  p_send : Rat := mkRat 3 10
  p_drop : Rat := 0
  max_recv_per_tick : Int := 64
  seed : Nat := 0
  debug : Bool := true
deriving DecidableEq

/-- One `send_message` call: the message, the destination rank and the
effective dropped flag that was recorded with the send event. -/
structure SendAction where
  msg : Message
  dst_rank : Int
  dropped : Bool
deriving DecidableEq

/-- The full state of one `Node` object (`node.hpp`, `class Node`), together
with the oracle streams standing for its `std::mt19937_64` engine and the
modelled transport (`sends`, `wire`). -/
structure NodeState where
  rank : Int
  world_size : Int
  num_nodes : Int
  uid : Int
  leader_uid : Int
  last_hb_tick : Int
  can_communicate : Bool
  election_active : Bool
  election_started : Bool
  waiting_for_coordinator : Bool
  ok_received_tick : Int
  election_start_tick : Int
  cfg : NodeConfig
  msg_buffer : MessageBuffer
  debug_messages : List String
  next_msg_id : Int
  pings_sent : Int
  acks_received : Int
  uniDraws : List Rat
  peerDraws : List Int
  sends : List SendAction
  wire : List (Message × Int)
deriving DecidableEq

/-- The algorithm-relevant core of a node state: everything except the
logging buffers, oracles and transport record.  Used to state that the
transport helpers do not touch the protocol state. -/
structure CoreState where
  rank : Int
  world_size : Int
  num_nodes : Int
  uid : Int
  leader_uid : Int
  last_hb_tick : Int
  can_communicate : Bool
  election_active : Bool
  election_started : Bool
  waiting_for_coordinator : Bool
  ok_received_tick : Int
  election_start_tick : Int
  cfg : NodeConfig
deriving DecidableEq

/-- Projection onto the protocol core. -/
def NodeState.core (s : NodeState) : CoreState :=
  ⟨s.rank, s.world_size, s.num_nodes, s.uid, s.leader_uid, s.last_hb_tick,
   s.can_communicate, s.election_active, s.election_started,
   s.waiting_for_coordinator, s.ok_received_tick, s.election_start_tick, s.cfg⟩

/-- The member-initialized state of a freshly constructed `Node` after the
constructor body ran (`uid == rank`, `leader_uid = num_nodes`,
`last_hb_tick = -1`, all election flags cleared, empty buffers). -/
def initNode (mpi_rank world_size num_nodes : Int) (cfg : NodeConfig)
    (uniDraws : List Rat) (peerDraws : List Int) : NodeState :=
  { rank := mpi_rank
    world_size := world_size
    num_nodes := num_nodes
    uid := mpi_rank
    leader_uid := num_nodes
    last_hb_tick := -1
    can_communicate := true
    election_active := false
    election_started := false
    waiting_for_coordinator := false
    ok_received_tick := -1
    election_start_tick := -1
    cfg := cfg
    msg_buffer := MessageBuffer.empty
    debug_messages := []
    next_msg_id := 0
    pings_sent := 0
    acks_received := 0
    uniDraws := uniDraws
    peerDraws := peerDraws
    sends := []
    wire := [] }

/-- `Node::Node`: construction fails for the controller rank and for an
inconsistent world size; otherwise the node starts in `initNode`. -/
def mkNode (mpi_rank world_size num_nodes : Int) (cfg : NodeConfig)
    (uniDraws : List Rat) (peerDraws : List Int) : Except String NodeState :=
  if mpi_rank = 0 then
    Except.error "Node should not be constructed for controller rank 0"
  else if world_size ≠ num_nodes + 1 then
    Except.error "world_size must equal num_nodes + 1"
  else
    Except.ok (initNode mpi_rank world_size num_nodes cfg uniDraws peerDraws)

/-- One draw of `uni_(rng_)` from the node's uniform oracle. -/
def NodeState.popUni (s : NodeState) : Rat × NodeState :=
  (s.uniDraws.headD 1, { s with uniDraws := s.uniDraws.tail })

/-- `Node::should_drop_outgoing`: no draw at all when `p_drop ≤ 0`, else a
uniform draw compared with `<=` against `p_drop`. -/
def NodeState.should_drop_outgoing (s : NodeState) : Bool × NodeState :=
  if s.cfg.p_drop ≤ 0 then (false, s)
  else
    let p := s.popUni
    (decide (p.1 ≤ s.cfg.p_drop), p.2)

/-- `Node::debug_print`: store the message in the per-tick debug buffer (the
`std::cout` echo is I/O and not modelled). -/
def NodeState.debug_print (s : NodeState) (tick : Int) (msg : String) : NodeState :=
  let _ := tick
  { s with debug_messages := s.debug_messages ++ [msg] }

/-- `Node::send_message`: compute the effective dropped flag, always log a
send event with it, and put the message on the wire (`MPI_Send`) only when
not effectively dropped. -/
def NodeState.send_message (s : NodeState) (m : Message) (dst_rank : Int)
    (dropped : Bool) : NodeState :=
  let eff := dropped || !s.can_communicate
  let s1 := { s with
    msg_buffer := s.msg_buffer.log_send m.tick m dst_rank eff
    sends := s.sends ++ [⟨m, dst_rank, eff⟩] }
  if eff then s1 else { s1 with wire := s1.wire ++ [(m, dst_rank)] }

/-- The node ranks `1 .. num_nodes` iterated by the C++ `for` loops. -/
def nodeRanks (num_nodes : Int) : List Int :=
  (List.range num_nodes.toNat).map (fun (i : Nat) => (i : Int) + 1)

/-- `Node::broadcast_to_nodes`: `send_message` with the default
`dropped = false` argument to every node rank except the sender's own. -/
def NodeState.broadcast_to_nodes (s : NodeState) (m : Message) : NodeState :=
  (nodeRanks s.num_nodes).foldl
    (fun st r => if r = st.rank then st else st.send_message m r false) s

/-- `Node::maybe_send_heartbeat`. -/
def NodeState.maybe_send_heartbeat (s : NodeState) (tick : Int) : NodeState :=
  if s.uid ≠ s.leader_uid then s
  else if s.cfg.hb_period_ticks ≤ 0 then s
  else if tick % s.cfg.hb_period_ticks ≠ 0 then s
  else
    let s1 := s.debug_print tick "→ HEARTBEAT to all"
    s1.broadcast_to_nodes ⟨MsgType.HEARTBEAT, tick, s1.uid, -1, s1.uid, 0⟩

/-- Loop body of `Node::start_election`: for a higher-UID rank, draw the drop
decision, send the ELECTION message and record whether anything was sent. -/
def startElectionStep (m : Message) (tick : Int) (acc : NodeState × Bool)
    (r : Int) : NodeState × Bool :=
  if acc.1.uid < r then
    let d := acc.1.should_drop_outgoing
    let st2 := d.2.send_message m r d.1
    if !d.1 then
      (st2.debug_print tick ("→ ELECTION to " ++ toString r), true)
    else
      (st2.debug_print tick ("✗ ELECTION to " ++ toString r ++ " (dropped)"), acc.2)
  else acc

/-- `Node::start_election`. -/
def NodeState.start_election (s : NodeState) (tick : Int) : NodeState :=
  let s0 := { s with election_started := true, election_start_tick := tick }
  let m : Message := ⟨MsgType.ELECTION, tick, s0.uid, -1, s0.leader_uid, 0⟩
  let res := (nodeRanks s0.num_nodes).foldl (startElectionStep m tick) (s0, false)
  if !res.2 && s0.uid = s0.num_nodes then
    res.1.debug_print tick "👑 no higher nodes: winning immediately"
  else res.1

/-- The OK reply emitted by the ELECTION handler (`node.hpp`, the first half
of the `case MsgType::ELECTION` block): draw the drop decision, send OK back
to the ELECTION's sender and log the outcome. -/
def NodeState.election_ok_reply (s : NodeState) (src : Int) (tick : Int) : NodeState :=
  let ok : Message := ⟨MsgType.OK, tick, s.uid, src, s.leader_uid, 0⟩
  let d := s.should_drop_outgoing
  let s2 := d.2.send_message ok src d.1
  if !d.1 then s2.debug_print tick ("→ OK to " ++ toString src)
  else s2.debug_print tick ("✗ OK to " ++ toString src ++ " (dropped)")

/-- The ACK reply emitted by the PING handler (`node.hpp`,
`case MsgType::PING`). -/
def NodeState.ping_ack_reply (s : NodeState) (src aux tick : Int) : NodeState :=
  let ack : Message := ⟨MsgType.ACK, tick, s.uid, src, s.leader_uid, aux⟩
  let d := s.should_drop_outgoing
  let s2 := d.2.send_message ack ack.dst_uid d.1
  if !d.1 then s2.debug_print tick ("→ ACK to " ++ toString ack.dst_uid)
  else s2.debug_print tick ("✗ ACK to " ++ toString ack.dst_uid ++ " (dropped)")

/-- `Node::handle_message`. -/
def NodeState.handle_message (s : NodeState) (m : Message) (tick : Int) : NodeState :=
  match m.type with
  | MsgType.HEARTBEAT =>
    if s.uid ≤ m.src_uid then
      ({ s with leader_uid := m.src_uid, last_hb_tick := tick,
                election_active := false,
                waiting_for_coordinator := false }).debug_print tick
        ("← HEARTBEAT from " ++ toString m.src_uid)
    else s
  | MsgType.ELECTION =>
    let s3 := s.election_ok_reply m.src_uid tick
    if m.src_uid < s3.uid ∧ !s3.election_active then
      ({ s3 with election_active := true, election_started := false }).debug_print tick
        ("← ELECTION from " ++ toString m.src_uid ++ ": starting own election")
    else s3
  | MsgType.OK =>
    if s.uid < m.src_uid then
      ({ s with election_active := false, election_started := false,
                waiting_for_coordinator := true,
                ok_received_tick := tick }).debug_print tick
        ("← OK from " ++ toString m.src_uid ++ ": yielding, waiting for COORDINATOR")
    else s
  | MsgType.COORDINATOR =>
    if s.uid ≤ m.src_uid then
      let s1 := s.debug_print tick
        ("← COORDINATOR from " ++ toString m.src_uid ++ ": accepted as leader")
      { s1 with leader_uid := m.src_uid, last_hb_tick := tick,
                election_active := false, election_started := false,
                waiting_for_coordinator := false, ok_received_tick := -1 }
    else
      let s1 := s.debug_print tick
        ("← COORDINATOR from " ++ toString m.src_uid ++ ": rejected (lower UID), starting election")
      if !s1.election_active && !s1.waiting_for_coordinator then
        { s1 with election_active := true, election_started := false }
      else s1
  | MsgType.PING => s.ping_ack_reply m.src_uid m.aux tick
  | _ => s

/-- The retry loop of `Node::random_peer_rank`: keep drawing until the drawn
rank differs from the node's own rank.  An exhausted oracle returns the own
rank (the C++ loop cannot terminate that way; unused by the theorems). -/
def firstOtherRank (rank : Int) : List Int → Int × List Int
  | [] => (rank, [])
  | d :: rest => if d = rank then firstOtherRank rank rest else (d, rest)

/-- `Node::random_peer_rank`. -/
def NodeState.random_peer_rank (s : NodeState) : Int × NodeState :=
  let p := firstOtherRank s.rank s.peerDraws
  (p.1, { s with peerDraws := p.2 })

/-- `Node::maybe_send_random_ping`. -/
def NodeState.maybe_send_random_ping (s : NodeState) (tick : Int) : NodeState :=
  if s.cfg.p_send ≤ 0 then s
  else
    let u := s.popUni
    if u.2.cfg.p_send ≤ u.1 then u.2
    else
      let pr := u.2.random_peer_rank
      let destination_node := pr.1
      let m : Message := ⟨MsgType.PING, tick, pr.2.uid, destination_node,
                          pr.2.leader_uid, pr.2.next_msg_id⟩
      let s3 := { pr.2 with next_msg_id := pr.2.next_msg_id + 1 }
      let d := s3.should_drop_outgoing
      let s5 := d.2.send_message m destination_node d.1
      if !d.1 then
        ({ s5 with pings_sent := s5.pings_sent + 1 }).debug_print tick
          ("→ PING to " ++ toString destination_node)
      else
        s5.debug_print tick ("✗ PING to " ++ toString m.dst_uid ++ " (dropped)")

/-- `Node::tick_send` (Phase SEND). -/
def NodeState.tick_send (s : NodeState) (tick : Int) : NodeState :=
  let s1 := s.maybe_send_heartbeat tick
  let s2 := if s1.election_active && !s1.election_started
            then s1.start_election tick else s1
  s2.maybe_send_random_ping tick

/-- One iteration of the `Node::drain_incoming` loop: log the receive event
unconditionally, then handle the message only when `can_communicate`. -/
def NodeState.drainStep (s : NodeState) (tick : Int) (m : Message) : NodeState :=
  let s1 := { s with msg_buffer := s.msg_buffer.log_recv tick m }
  if s1.can_communicate then s1.handle_message m tick else s1

/-- `Node::drain_incoming`: pop at most `max_recv_per_tick` pending messages
in arrival order. -/
def NodeState.drain_incoming (s : NodeState) (tick : Int)
    (inbox : List Message) : NodeState :=
  (inbox.take s.cfg.max_recv_per_tick.toNat).foldl
    (fun st m => st.drainStep tick m) s

/-- `Node::tick_recv` (Phase RECV). -/
def NodeState.tick_recv (s : NodeState) (tick : Int) (inbox : List Message) :
    NodeState :=
  s.drain_incoming tick inbox

/-- Guard of the leader-liveness (heartbeat) timeout check in `Node::tick_end`. -/
def NodeState.hb_timeout_guard (s : NodeState) (tick : Int) : Bool :=
  decide (s.leader_uid ≠ -1) && decide (s.uid ≠ s.leader_uid)
    && !s.election_active && !s.waiting_for_coordinator
    && decide (0 ≤ s.last_hb_tick)
    && decide (s.cfg.hb_timeout_ticks ≤ tick - s.last_hb_tick)

/-- First check of `Node::tick_end`: heartbeat timeout starts an election. -/
def NodeState.hb_timeout_step (s : NodeState) (tick : Int) : NodeState :=
  if s.hb_timeout_guard tick then
    ({ s with election_active := true, election_started := false }).debug_print tick
      "⏱ timeout: no heartbeat from leader, starting election"
  else s

/-- Guard of the COORDINATOR-wait timeout check in `Node::tick_end`. -/
def NodeState.coord_wait_guard (s : NodeState) (tick : Int) : Bool :=
  s.waiting_for_coordinator
    && decide (s.cfg.election_timeout_ticks < tick - s.ok_received_tick)

/-- Second check of `Node::tick_end`: COORDINATOR-wait timeout restarts an
election. -/
def NodeState.coord_wait_step (s : NodeState) (tick : Int) : NodeState :=
  if s.coord_wait_guard tick then
    ({ s with waiting_for_coordinator := false, ok_received_tick := -1,
              election_active := true, election_started := false }).debug_print tick
      "⏱ timeout: no COORDINATOR received, restarting election"
  else s

/-- Guard of the victory check in `Node::tick_end`. -/
def NodeState.victory_guard (s : NodeState) (tick : Int) : Bool :=
  s.election_active && s.election_started
    && decide (s.cfg.election_timeout_ticks < tick - s.election_start_tick)

/-- Third check of `Node::tick_end`: the election timed out with no OK, so
the node declares itself leader and broadcasts COORDINATOR. -/
def NodeState.victory_step (s : NodeState) (tick : Int) : NodeState :=
  if s.victory_guard tick then
    let s1 := ({ s with leader_uid := s.uid, election_active := false,
                        election_started := false }).debug_print tick
      "👑 won election: becoming leader"
    let coord : Message := ⟨MsgType.COORDINATOR, tick, s1.uid, -1, s1.uid, 0⟩
    (s1.broadcast_to_nodes coord).debug_print tick "→ COORDINATOR to all: I am leader"
  else s

/-- `Node::tick_end` (Phase END): the three timeout checks in program order. -/
def NodeState.tick_end (s : NodeState) (tick : Int) : NodeState :=
  ((s.hb_timeout_step tick).coord_wait_step tick).victory_step tick

/-- `Node::make_state_report`. -/
def NodeState.make_state_report (s : NodeState) (tick : Int) : StateReport :=
  ⟨tick, s.uid, if s.can_communicate then 1 else 0, s.leader_uid,
   if s.election_active then 1 else 0, s.last_hb_tick⟩

/-- `failure.hpp`, `mix_seed`: xor-shift-multiply mixing over 64-bit words,
modelled on `Nat` with explicit reduction mod `2 ^ 64`. -/
def mix_seed (base id : Nat) : Nat :=
  let M := 2 ^ 64
  let x0 := (base ^^^ ((id + 0x9e3779b97f4a7c15) % M)) % M
  let x1 := x0 ^^^ (x0 >>> 30)
  let x2 := (x1 * 0xbf58476d1ce4e5b9) % M
  let x3 := x2 ^^^ (x2 >>> 27)
  let x4 := (x3 * 0x94d049bb133111eb) % M
  x4 ^^^ (x4 >>> 31)

/-- `failure.hpp`, `struct NetworkFailureConfig`. -/
structure NetworkFailureConfig where
  p_fail : Rat := mkRat 1 50
  leader_fail_multiplier : Rat := 2
  offline_durations : List Int := [1, 2, 3, 5]
  offline_weights : List Int := [70, 20, 7, 3]
deriving DecidableEq

/-- State of one `NetworkFailure` object.  The engine is modelled by two
oracle streams: `uniDraws` for the `uniform_real_distribution` draws and
`idxDraws` for the indices produced by the `discrete_distribution` over
`offline_weights`. -/
structure NetworkFailureState where
  uid : Int
  cfg : NetworkFailureConfig
  offline_remaining : Int
  is_leader : Bool
  uniDraws : List Rat
  idxDraws : List Nat
deriving DecidableEq

/-- Fresh `NetworkFailure` (constructor): the counter starts at zero and the
node is not assumed to be leader. -/
def NetworkFailureState.make (uid : Int) (cfg : NetworkFailureConfig)
    (uniDraws : List Rat) (idxDraws : List Nat) : NetworkFailureState :=
  ⟨uid, cfg, 0, false, uniDraws, idxDraws⟩

/-- The effective failure probability used by `NetworkFailure::tick`. -/
def NetworkFailureState.effective_p (f : NetworkFailureState) : Rat :=
  if f.is_leader then f.cfg.p_fail * f.cfg.leader_fail_multiplier else f.cfg.p_fail

/-- `NetworkFailure::tick`: countdown if offline, else a Bernoulli draw with
the (possibly leader-scaled) failure probability; on success a categorical
index draw selects the offline duration. -/
def NetworkFailureState.tick (f : NetworkFailureState) : NetworkFailureState :=
  if 0 < f.offline_remaining then
    { f with offline_remaining := f.offline_remaining - 1 }
  else
    let u := f.uniDraws.headD 1
    let f1 := { f with uniDraws := f.uniDraws.tail }
    if u < f.effective_p then
      let idx := f1.idxDraws.headD 0
      let f2 := { f1 with idxDraws := f1.idxDraws.tail }
      { f2 with offline_remaining := f2.cfg.offline_durations.getD idx 0 }
    else f1

/-- `NetworkFailure::can_communicate`. -/
def NetworkFailureState.can_communicate (f : NetworkFailureState) : Bool :=
  f.offline_remaining = 0

/-- `NetworkFailure::ticks_until_recovery`. -/
def NetworkFailureState.ticks_until_recovery (f : NetworkFailureState) : Int :=
  f.offline_remaining

/-- `NetworkFailure::set_is_leader`. -/
def NetworkFailureState.set_is_leader (f : NetworkFailureState) (b : Bool) :
    NetworkFailureState :=
  { f with is_leader := b }

/-- The per-tick failure advance of the worker loop in `main`: inject the
node's leadership belief, advance the failure model, then freeze the
resulting communication flag into the node for the whole tick. -/
def workerFailureAdvance (node : NodeState) (f : NetworkFailureState) :
    NetworkFailureState × NodeState :=
  let f1 := (f.set_is_leader (node.leader_uid = node.uid)).tick
  (f1, { node with can_communicate := f1.can_communicate })

/-- The opposite of the `r == rank_` skip in `broadcast_to_nodes`. -/
def notRank (rk : Int) (r : Int) : Bool := !(decide (r = rk))

/-- One logging request submitted to a `MessageBuffer` during a tick: every
write goes through `log_send` or `log_recv`. -/
inductive LogOp
  | send (tick : Int) (m : Message) (dst_uid : Int) (dropped : Bool)
  | recv (tick : Int) (m : Message)

/-- Apply one logging request. -/
def MessageBuffer.apply_log (b : MessageBuffer) : LogOp → MessageBuffer
  | LogOp.send t m d dr => b.log_send t m d dr
  | LogOp.recv t m => b.log_recv t m

/-- A buffer that is exactly full, used to exercise the discard branch. -/
def fullBuffer : MessageBuffer :=
  ⟨List.replicate 32 ⟨0, MsgType.PING, 1, 2, false, false⟩⟩

/-- Every receive event stored in the buffer has `dropped = false`. -/
def MessageBuffer.recv_not_dropped (b : MessageBuffer) : Bool :=
  b.events.all (fun e => !e.direction || !e.dropped)


/-- The spec invariant `waiting_for_coordinator implies not election_active`,
as a boolean predicate on node states. -/
def NodeState.wait_excludes_active (s : NodeState) : Bool :=
  !s.waiting_for_coordinator || !s.election_active

/-- A quiescent highest-UID node (uid = rank = num_nodes = 3, world size 4)
with background traffic and message dropping disabled, used as the base of
the concrete test states below. -/
def baseState : NodeState :=
  { rank := 3
    world_size := 4
    num_nodes := 3
    uid := 3
    leader_uid := 3
    last_hb_tick := -1
    can_communicate := true
    election_active := false
    election_started := false
    waiting_for_coordinator := false
    ok_received_tick := -1
    election_start_tick := -1
    cfg := { p_send := 0, p_drop := 0 }
    msg_buffer := MessageBuffer.empty
    debug_messages := []
    next_msg_id := 0
    pings_sent := 0
    acks_received := 0
    uniDraws := []
    peerDraws := []
    sends := []
    wire := [] }

/-- A node that received an OK and is awaiting COORDINATOR. -/
def waitingState : NodeState :=
  { baseState with waiting_for_coordinator := true, ok_received_tick := 4 }

/-- The highest-UID node in the ELECTING state (election pending, ELECTION
messages not yet emitted). -/
def electingTopState : NodeState :=
  { baseState with election_active := true }

/-- A node whose started election is past the victory timeout at tick 4. -/
def victoryDueState : NodeState :=
  { baseState with
    leader_uid := 2
    election_active := true
    election_started := true
    election_start_tick := 0 }

/-- A node whose failure model has gated communication off. -/
def offlineGateState : NodeState :=
  { baseState with can_communicate := false }

/-- A node acting as leader with certain message dropping (`p_drop = 1`). -/
def dropBroadcastState : NodeState :=
  { baseState with
    uid := 2
    rank := 2
    leader_uid := 2
    cfg := { p_send := 0, p_drop := 1 }
    uniDraws := [1, 1, 1] }

/-- A network-failure state with one residual offline tick left. -/
def nfOffline1 : NetworkFailureState :=
  { uid := 1
    cfg := {}
    offline_remaining := 1
    is_leader := false
    uniDraws := [0]
    idxDraws := [0] }

/-- A network-failure state with two residual offline ticks left. -/
def nfOffline2 : NetworkFailureState :=
  { nfOffline1 with offline_remaining := 2 }

/-- An online network-failure state about to draw `u = 0` and index `2`. -/
def nfIdleDraw : NetworkFailureState :=
  { nfOffline1 with offline_remaining := 0, uniDraws := [0, 1], idxDraws := [2, 0] }

/-! ### Helper lemmas: the transport helpers do not touch the protocol core -/

theorem debug_print_core (s : NodeState) (t : Int) (msg : String) :
    (s.debug_print t msg).core = s.core := rfl

theorem debug_print_msg_buffer (s : NodeState) (t : Int) (msg : String) :
    (s.debug_print t msg).msg_buffer = s.msg_buffer := rfl

theorem debug_print_sends (s : NodeState) (t : Int) (msg : String) :
    (s.debug_print t msg).sends = s.sends := rfl

theorem debug_print_wire (s : NodeState) (t : Int) (msg : String) :
    (s.debug_print t msg).wire = s.wire := rfl

theorem send_message_core (s : NodeState) (m : Message) (dst : Int) (dr : Bool) :
    (s.send_message m dst dr).core = s.core := by
  unfold NodeState.send_message
  dsimp only
  split <;> rfl

theorem send_message_sends (s : NodeState) (m : Message) (dst : Int) (dr : Bool) :
    (s.send_message m dst dr).sends =
      s.sends ++ [⟨m, dst, dr || !s.can_communicate⟩] := by
  unfold NodeState.send_message
  dsimp only
  split <;> rfl

theorem send_message_msg_buffer (s : NodeState) (m : Message) (dst : Int) (dr : Bool) :
    (s.send_message m dst dr).msg_buffer =
      s.msg_buffer.log_send m.tick m dst (dr || !s.can_communicate) := by
  unfold NodeState.send_message
  dsimp only
  split <;> rfl

theorem send_message_wire (s : NodeState) (m : Message) (dst : Int) (dr : Bool) :
    (s.send_message m dst dr).wire =
      s.wire ++ (if (dr || !s.can_communicate) = true then [] else [(m, dst)]) := by
  unfold NodeState.send_message
  dsimp only
  split
  · simp_all
  · simp_all

theorem should_drop_core (s : NodeState) :
    (s.should_drop_outgoing).2.core = s.core := by
  unfold NodeState.should_drop_outgoing
  dsimp only
  split <;> rfl

theorem should_drop_msg_buffer (s : NodeState) :
    (s.should_drop_outgoing).2.msg_buffer = s.msg_buffer := by
  unfold NodeState.should_drop_outgoing
  dsimp only
  split <;> rfl

theorem should_drop_sends (s : NodeState) :
    (s.should_drop_outgoing).2.sends = s.sends := by
  unfold NodeState.should_drop_outgoing
  dsimp only
  split <;> rfl

theorem random_peer_core (s : NodeState) :
    (s.random_peer_rank).2.core = s.core := rfl

/-! Transfer of core equality to the individual protocol fields. -/

theorem core_eq_uid {a b : NodeState} (h : a.core = b.core) : a.uid = b.uid :=
  congrArg CoreState.uid h

theorem core_eq_rank {a b : NodeState} (h : a.core = b.core) : a.rank = b.rank :=
  congrArg CoreState.rank h

theorem core_eq_num_nodes {a b : NodeState} (h : a.core = b.core) :
    a.num_nodes = b.num_nodes :=
  congrArg CoreState.num_nodes h

theorem core_eq_leader {a b : NodeState} (h : a.core = b.core) :
    a.leader_uid = b.leader_uid :=
  congrArg CoreState.leader_uid h

theorem core_eq_last_hb {a b : NodeState} (h : a.core = b.core) :
    a.last_hb_tick = b.last_hb_tick :=
  congrArg CoreState.last_hb_tick h

theorem core_eq_can {a b : NodeState} (h : a.core = b.core) :
    a.can_communicate = b.can_communicate :=
  congrArg CoreState.can_communicate h

theorem core_eq_active {a b : NodeState} (h : a.core = b.core) :
    a.election_active = b.election_active :=
  congrArg CoreState.election_active h

theorem core_eq_started {a b : NodeState} (h : a.core = b.core) :
    a.election_started = b.election_started :=
  congrArg CoreState.election_started h

theorem core_eq_waiting {a b : NodeState} (h : a.core = b.core) :
    a.waiting_for_coordinator = b.waiting_for_coordinator :=
  congrArg CoreState.waiting_for_coordinator h

theorem core_eq_ok_tick {a b : NodeState} (h : a.core = b.core) :
    a.ok_received_tick = b.ok_received_tick :=
  congrArg CoreState.ok_received_tick h

theorem core_eq_start_tick {a b : NodeState} (h : a.core = b.core) :
    a.election_start_tick = b.election_start_tick :=
  congrArg CoreState.election_start_tick h

theorem core_eq_cfg {a b : NodeState} (h : a.core = b.core) : a.cfg = b.cfg :=
  congrArg CoreState.cfg h

/-! ### Broadcast characterization -/

theorem foldl_broadcast_sends (m : Message) (rk : Int) (cc : Bool) :
    ∀ (l : List Int) (s : NodeState), s.rank = rk → s.can_communicate = cc →
      ((l.foldl (fun st r => if r = st.rank then st else st.send_message m r false) s)).sends
        = s.sends ++ (l.filter (notRank rk)).map (fun r => ⟨m, r, !cc⟩) := by
  intro l
  induction l with
  | nil => intro s _ _; simp
  | cons r l ih =>
    intro s hrk hcc
    simp only [List.foldl_cons, List.filter_cons]
    by_cases hr : r = s.rank
    · rw [if_pos hr]
      have : notRank rk r = false := by
        simp [notRank, hr, hrk]
      rw [this]
      simp only [Bool.false_eq_true, if_neg (by simp : ¬(false = true))]
      exact ih s hrk hcc
    · rw [if_neg hr]
      have hnr : notRank rk r = true := by
        simp [notRank]
        intro h
        exact hr (h.trans hrk.symm)
      rw [hnr, if_pos rfl]
      have hcore := send_message_core s m r false
      have h1 := ih (s.send_message m r false)
        ((core_eq_rank hcore).trans hrk) ((core_eq_can hcore).trans hcc)
      rw [h1, send_message_sends, hcc]
      simp

theorem foldl_broadcast_core (m : Message) :
    ∀ (l : List Int) (s : NodeState),
      ((l.foldl (fun st r => if r = st.rank then st else st.send_message m r false) s)).core
        = s.core := by
  intro l
  induction l with
  | nil => intro s; rfl
  | cons r l ih =>
    intro s
    simp only [List.foldl_cons]
    by_cases hr : r = s.rank
    · rw [if_pos hr]; exact ih s
    · rw [if_neg hr]
      exact (ih (s.send_message m r false)).trans (send_message_core s m r false)

theorem broadcast_to_nodes_sends (s : NodeState) (m : Message) :
    (s.broadcast_to_nodes m).sends =
      s.sends ++ ((nodeRanks s.num_nodes).filter (notRank s.rank)).map
        (fun r => ⟨m, r, !s.can_communicate⟩) :=
  foldl_broadcast_sends m s.rank s.can_communicate (nodeRanks s.num_nodes) s rfl rfl

theorem broadcast_to_nodes_core (s : NodeState) (m : Message) :
    (s.broadcast_to_nodes m).core = s.core :=
  foldl_broadcast_core m (nodeRanks s.num_nodes) s

/-! ### The bounded event buffer (claim C6) -/

theorem add_event_length_le (b : MessageBuffer) (t : Int) (ty : MsgType)
    (su du : Int) (dr rv : Bool) (h : b.events.length ≤ MAX_MSG_EVENTS_PER_TICK) :
    (b.add_event t ty su du dr rv).events.length ≤ MAX_MSG_EVENTS_PER_TICK := by
  unfold MessageBuffer.add_event
  split
  · exact h
  · simp only [List.length_append, List.length_cons, List.length_nil]
    omega

theorem apply_log_length_le (b : MessageBuffer) (op : LogOp)
    (h : b.events.length ≤ MAX_MSG_EVENTS_PER_TICK) :
    (b.apply_log op).events.length ≤ MAX_MSG_EVENTS_PER_TICK := by
  cases op with
  | send t m d dr => exact add_event_length_le _ _ _ _ _ _ _ h
  | recv t m => exact add_event_length_le _ _ _ _ _ _ _ h

theorem foldl_apply_log_length_le :
    ∀ (ops : List LogOp) (b : MessageBuffer),
      b.events.length ≤ MAX_MSG_EVENTS_PER_TICK →
      (ops.foldl MessageBuffer.apply_log b).events.length ≤ MAX_MSG_EVENTS_PER_TICK := by
  intro ops
  induction ops with
  | nil => intro b h; exact h
  | cons op ops ih =>
    intro b h
    exact ih (b.apply_log op) (apply_log_length_le b op h)

/-- C6: however many logging requests a peer submits in a tick, the event
buffer never holds more than `MAX_MSG_EVENTS_PER_TICK = 32` events, and a
request arriving at a full buffer is silently discarded, leaving the buffer
unchanged. -/
theorem c6_event_bound :
    (∀ (ops : List LogOp) (b : MessageBuffer),
        b.events.length ≤ MAX_MSG_EVENTS_PER_TICK →
        (ops.foldl MessageBuffer.apply_log b).events.length ≤ MAX_MSG_EVENTS_PER_TICK)
    ∧ (∀ (b : MessageBuffer) (t : Int) (ty : MsgType) (su du : Int) (dr rv : Bool),
        MAX_MSG_EVENTS_PER_TICK ≤ b.events.length →
        b.add_event t ty su du dr rv = b) := by
  constructor
  · exact foldl_apply_log_length_le
  · intro b t ty su du dr rv h
    unfold MessageBuffer.add_event
    rw [if_pos h]

theorem c6_event_bound_witness :
    (((List.replicate 40 (LogOp.recv 0 ⟨MsgType.PING, 0, 1, 2, 1, 0⟩)).foldl
        MessageBuffer.apply_log MessageBuffer.empty).events.length
      ≤ MAX_MSG_EVENTS_PER_TICK)
    ∧ fullBuffer.add_event 3 MsgType.ELECTION 1 2 false true = fullBuffer :=
  ⟨c6_event_bound.1 _ MessageBuffer.empty (by decide),
   c6_event_bound.2 fullBuffer 3 MsgType.ELECTION 1 2 false true (by decide)⟩

/-! ### Node construction (claim C10) -/

/-- C10: `Node::Node` rejects exactly the controller rank and a world size
different from `num_nodes + 1`; a successfully constructed node starts with
`leader_uid = num_nodes` (the highest UID) and `last_hb_tick = -1`. -/
theorem c10_node_ctor :
    ∀ (mpi_rank world_size num_nodes : Int) (cfg : NodeConfig)
      (ud : List Rat) (pd : List Int),
      ((∃ e, mkNode mpi_rank world_size num_nodes cfg ud pd = Except.error e) ↔
        (mpi_rank = 0 ∨ world_size ≠ num_nodes + 1))
      ∧ (∀ s, mkNode mpi_rank world_size num_nodes cfg ud pd = Except.ok s →
          s.leader_uid = num_nodes ∧ s.last_hb_tick = -1) := by
  intro r w n cfg ud pd
  unfold mkNode
  by_cases h0 : r = 0
  · rw [if_pos h0]
    refine ⟨⟨fun _ => Or.inl h0, fun _ => ⟨_, rfl⟩⟩, ?_⟩
    intro s hs
    exact absurd hs (by simp)
  · rw [if_neg h0]
    by_cases h1 : w ≠ n + 1
    · rw [if_pos h1]
      refine ⟨⟨fun _ => Or.inr h1, fun _ => ⟨_, rfl⟩⟩, ?_⟩
      intro s hs
      exact absurd hs (by simp)
    · rw [if_neg h1]
      refine ⟨⟨?_, ?_⟩, ?_⟩
      · rintro ⟨e, he⟩
        exact absurd he (by simp)
      · intro hor
        rcases hor with h | h
        · exact absurd h h0
        · exact absurd h h1
      · intro s hs
        injection hs with hseq
        rw [← hseq]
        exact ⟨rfl, rfl⟩

theorem c10_node_ctor_witness :
    ((∃ e, mkNode 0 4 3 {} [] [] = Except.error e))
    ∧ ((initNode 1 4 3 {} [] []).leader_uid = 3
        ∧ (initNode 1 4 3 {} [] []).last_hb_tick = -1) :=
  ⟨((c10_node_ctor 0 4 3 {} [] []).1).2 (Or.inl rfl),
   (c10_node_ctor 1 4 3 {} [] []).2 (initNode 1 4 3 {} [] []) rfl⟩

/-! ### Receive events never carry the dropped flag (claim C9) -/

theorem recv_not_dropped_add_event (b : MessageBuffer) (t : Int) (ty : MsgType)
    (su du : Int) (dr rv : Bool) (h : b.recv_not_dropped = true)
    (hp : (!rv || !dr) = true) :
    (b.add_event t ty su du dr rv).recv_not_dropped = true := by
  unfold MessageBuffer.add_event
  split
  · exact h
  · unfold MessageBuffer.recv_not_dropped at h ⊢
    simp only [List.all_append, Bool.and_eq_true, List.all_cons, List.all_nil]
    exact ⟨h, by simpa using hp⟩

theorem recv_not_dropped_log_send (b : MessageBuffer) (t : Int) (m : Message)
    (du : Int) (dr : Bool) (h : b.recv_not_dropped = true) :
    (b.log_send t m du dr).recv_not_dropped = true :=
  recv_not_dropped_add_event b t m.type m.src_uid du dr false h (by simp)

theorem recv_not_dropped_log_recv (b : MessageBuffer) (t : Int) (m : Message)
    (h : b.recv_not_dropped = true) :
    (b.log_recv t m).recv_not_dropped = true :=
  recv_not_dropped_add_event b t m.type m.src_uid m.dst_uid false true h (by simp)

/-- Transport effects of the factored-out OK reply. -/
theorem election_ok_reply_effects (s : NodeState) (src t : Int) :
    (s.election_ok_reply src t).core = s.core
    ∧ (s.election_ok_reply src t).sends
        = s.sends ++ [⟨⟨MsgType.OK, t, s.uid, src, s.leader_uid, 0⟩, src,
            (s.should_drop_outgoing).1 || !s.can_communicate⟩]
    ∧ (s.election_ok_reply src t).msg_buffer
        = s.msg_buffer.log_send t ⟨MsgType.OK, t, s.uid, src, s.leader_uid, 0⟩ src
            ((s.should_drop_outgoing).1 || !s.can_communicate) := by
  rcases hsd : s.should_drop_outgoing with ⟨dr, s1⟩
  have hcore : s1.core = s.core := by
    have h2 := should_drop_core s
    rw [hsd] at h2
    exact h2
  have hcan : s1.can_communicate = s.can_communicate := core_eq_can hcore
  have hsends : s1.sends = s.sends := by
    have h2 := should_drop_sends s
    rw [hsd] at h2
    exact h2
  have hbuf : s1.msg_buffer = s.msg_buffer := by
    have h2 := should_drop_msg_buffer s
    rw [hsd] at h2
    exact h2
  unfold NodeState.election_ok_reply
  simp only [hsd]
  refine ⟨?_, ?_, ?_⟩ <;>
    cases dr <;>
    simp [debug_print_core, debug_print_sends, debug_print_msg_buffer,
      send_message_core, send_message_sends, send_message_msg_buffer,
      hcore, hcan, hsends, hbuf]

/-- Transport effects of the factored-out ACK reply. -/
theorem ping_ack_reply_effects (s : NodeState) (src aux t : Int) :
    (s.ping_ack_reply src aux t).core = s.core
    ∧ (s.ping_ack_reply src aux t).msg_buffer
        = s.msg_buffer.log_send t ⟨MsgType.ACK, t, s.uid, src, s.leader_uid, aux⟩ src
            ((s.should_drop_outgoing).1 || !s.can_communicate) := by
  rcases hsd : s.should_drop_outgoing with ⟨dr, s1⟩
  have hcore : s1.core = s.core := by
    have h2 := should_drop_core s
    rw [hsd] at h2
    exact h2
  have hcan : s1.can_communicate = s.can_communicate := core_eq_can hcore
  have hbuf : s1.msg_buffer = s.msg_buffer := by
    have h2 := should_drop_msg_buffer s
    rw [hsd] at h2
    exact h2
  unfold NodeState.ping_ack_reply
  simp only [hsd]
  refine ⟨?_, ?_⟩ <;>
    cases dr <;>
    simp [debug_print_core, debug_print_msg_buffer,
      send_message_core, send_message_msg_buffer, hcore, hcan, hbuf]

/-- The buffer effect of `handle_message`: the handler either leaves the
event buffer alone or submits exactly one send event to it. -/
theorem handle_message_msg_buffer (s : NodeState) (m : Message) (t : Int) :
    (s.handle_message m t).msg_buffer = s.msg_buffer
    ∨ ∃ t2 m2 d2 dr2,
        (s.handle_message m t).msg_buffer = s.msg_buffer.log_send t2 m2 d2 dr2 := by
  rcases m with ⟨ty, tk, su, du, lu, ax⟩
  cases ty
  case HEARTBEAT =>
    refine Or.inl ?_
    simp only [NodeState.handle_message]
    split <;> rfl
  case ELECTION =>
    refine Or.inr ⟨t, ⟨MsgType.OK, t, s.uid, su, s.leader_uid, 0⟩, su,
      (s.should_drop_outgoing).1 || !s.can_communicate, ?_⟩
    simp only [NodeState.handle_message]
    split
    · rw [debug_print_msg_buffer]
      show (s.election_ok_reply su t).msg_buffer = _
      exact (election_ok_reply_effects s su t).2.2
    · exact (election_ok_reply_effects s su t).2.2
  case OK =>
    refine Or.inl ?_
    simp only [NodeState.handle_message]
    split <;> rfl
  case COORDINATOR =>
    refine Or.inl ?_
    simp only [NodeState.handle_message]
    split
    · rfl
    · split <;> rfl
  case PING =>
    refine Or.inr ⟨t, ⟨MsgType.ACK, t, s.uid, su, s.leader_uid, ax⟩, su,
      (s.should_drop_outgoing).1 || !s.can_communicate, ?_⟩
    simp only [NodeState.handle_message]
    exact (ping_ack_reply_effects s su ax t).2
  case ACK => exact Or.inl rfl
  case STATE_REPORT => exact Or.inl rfl

theorem handle_message_recv_not_dropped (s : NodeState) (m : Message) (t : Int)
    (h : s.msg_buffer.recv_not_dropped = true) :
    (s.handle_message m t).msg_buffer.recv_not_dropped = true := by
  rcases handle_message_msg_buffer s m t with heq | ⟨t2, m2, d2, dr2, heq⟩
  · rw [heq]; exact h
  · rw [heq]; exact recv_not_dropped_log_send _ _ _ _ _ h

theorem drainStep_recv_not_dropped (s : NodeState) (t : Int) (m : Message)
    (h : s.msg_buffer.recv_not_dropped = true) :
    (s.drainStep t m).msg_buffer.recv_not_dropped = true := by
  unfold NodeState.drainStep
  dsimp only
  split
  · exact handle_message_recv_not_dropped _ m t (recv_not_dropped_log_recv _ t m h)
  · exact recv_not_dropped_log_recv _ t m h

theorem foldl_drainStep_recv_not_dropped (t : Int) :
    ∀ (l : List Message) (s : NodeState), s.msg_buffer.recv_not_dropped = true →
      ((l.foldl (fun st m => st.drainStep t m) s)).msg_buffer.recv_not_dropped = true := by
  intro l
  induction l with
  | nil => intro s h; exact h
  | cons m l ih =>
    intro s h
    exact ih (s.drainStep t m) (drainStep_recv_not_dropped s t m h)

/-- C9: events recorded for received messages always carry `dropped = false`
(only send events can be marked dropped), and a message arriving while the
peer cannot communicate is still logged as received — with `dropped = false`
— although it is discarded without being handled. -/
theorem c9_recv_events_not_dropped :
    (∀ (s : NodeState) (t : Int) (inbox : List Message),
        s.msg_buffer.recv_not_dropped = true →
        (s.drain_incoming t inbox).msg_buffer.recv_not_dropped = true)
    ∧ (∀ (s : NodeState) (t : Int) (m : Message),
        s.can_communicate = false →
        s.msg_buffer.events.length < MAX_MSG_EVENTS_PER_TICK →
        (s.drainStep t m).msg_buffer.events =
          s.msg_buffer.events ++ [⟨t, m.type, m.src_uid, m.dst_uid, false, true⟩]) := by
  constructor
  · intro s t inbox h
    exact foldl_drainStep_recv_not_dropped t _ s h
  · intro s t m hcc hlen
    unfold NodeState.drainStep
    dsimp only
    rw [if_neg (by simp [hcc])]
    show (s.msg_buffer.log_recv t m).events = _
    unfold MessageBuffer.log_recv MessageBuffer.add_event
    rw [if_neg (by omega)]

theorem c9_recv_events_not_dropped_witness :
    ((offlineGateState.drain_incoming 7
        [⟨MsgType.ELECTION, 7, 1, 3, 5, 0⟩]).msg_buffer.recv_not_dropped = true)
    ∧ ((offlineGateState.drainStep 7
          ⟨MsgType.PING, 7, 1, 3, 5, 9⟩).msg_buffer.events =
        offlineGateState.msg_buffer.events ++
          [⟨7, MsgType.PING, 1, 3, false, true⟩]) :=
  ⟨c9_recv_events_not_dropped.1 offlineGateState 7
      [⟨MsgType.ELECTION, 7, 1, 3, 5, 0⟩] (by decide),
   c9_recv_events_not_dropped.2 offlineGateState 7
      ⟨MsgType.PING, 7, 1, 3, 5, 9⟩ rfl (by decide)⟩

/-! ### Phase END ordering and mutual exclusion (claim C5) -/

/-- C5: `tick_end` evaluates the leader-liveness timeout, the
COORDINATOR-wait timeout and the victory decision in exactly that order, and
for every peer state at most one of the three checks can fire within one
tick: the state changes of an earlier check falsify the guards of the later
ones. -/
theorem c5_tick_end_exclusive :
    ∀ (s : NodeState) (t : Int),
      s.tick_end t = ((s.hb_timeout_step t).coord_wait_step t).victory_step t
      ∧ (s.hb_timeout_guard t && (s.hb_timeout_step t).coord_wait_guard t) = false
      ∧ (s.hb_timeout_guard t
          && ((s.hb_timeout_step t).coord_wait_step t).victory_guard t) = false
      ∧ ((s.hb_timeout_step t).coord_wait_guard t
          && ((s.hb_timeout_step t).coord_wait_step t).victory_guard t) = false := by
  intro s t
  refine ⟨rfl, ?_, ?_, ?_⟩
  · cases hg1 : s.hb_timeout_guard t
    · simp
    · have hg1p := hg1
      simp only [NodeState.hb_timeout_guard, Bool.and_eq_true, Bool.not_eq_true',
        decide_eq_true_eq] at hg1p
      have hw : s.waiting_for_coordinator = false := hg1p.1.1.2
      have hstep : (s.hb_timeout_step t).waiting_for_coordinator = false := by
        simp [NodeState.hb_timeout_step, hg1, NodeState.debug_print, hw]
      simp [NodeState.coord_wait_guard, hstep]
  · cases hg1 : s.hb_timeout_guard t
    · simp
    · have hg1p := hg1
      simp only [NodeState.hb_timeout_guard, Bool.and_eq_true, Bool.not_eq_true',
        decide_eq_true_eq] at hg1p
      have hw : s.waiting_for_coordinator = false := hg1p.1.1.2
      have hstep_w : (s.hb_timeout_step t).waiting_for_coordinator = false := by
        simp [NodeState.hb_timeout_step, hg1, NodeState.debug_print, hw]
      have hstep_s : (s.hb_timeout_step t).election_started = false := by
        simp [NodeState.hb_timeout_step, hg1, NodeState.debug_print]
      have hb2 : (s.hb_timeout_step t).coord_wait_step t = s.hb_timeout_step t := by
        simp [NodeState.coord_wait_step, NodeState.coord_wait_guard, hstep_w]
      rw [hb2]
      simp [NodeState.victory_guard, hstep_s]
  · cases hg2 : (s.hb_timeout_step t).coord_wait_guard t
    · simp
    · have hstep_s : ((s.hb_timeout_step t).coord_wait_step t).election_started = false := by
        simp [NodeState.coord_wait_step, hg2, NodeState.debug_print]
      simp [NodeState.victory_guard, hstep_s]

/-! ### Send events, drop flags and transmission (claim C4) -/

/-- C4 (amended): every `send_message` call records exactly one send event
whose dropped flag is the passed drop decision or-ed with the negated
communication flag; the message reaches the wire exactly when that flag is
false; and a broadcast performs one such send — with no per-message drop
trial, i.e. with the flag `!can_communicate` — to every node rank except the
sender's own. -/
theorem c4_drop_flag_amended :
    ∀ (s : NodeState) (m : Message) (dst : Int) (dr : Bool),
      (s.send_message m dst dr).sends
          = s.sends ++ [⟨m, dst, dr || !s.can_communicate⟩]
      ∧ (s.send_message m dst dr).msg_buffer
          = s.msg_buffer.log_send m.tick m dst (dr || !s.can_communicate)
      ∧ (s.send_message m dst dr).wire
          = s.wire ++ (if (dr || !s.can_communicate) = true then [] else [(m, dst)])
      ∧ (s.broadcast_to_nodes m).sends
          = s.sends ++ ((nodeRanks s.num_nodes).filter (notRank s.rank)).map
              (fun r => ⟨m, r, !s.can_communicate⟩) := by
  intro s m dst dr
  exact ⟨send_message_sends s m dst dr, send_message_msg_buffer s m dst dr,
    send_message_wire s m dst dr, broadcast_to_nodes_sends s m⟩

/-- C4 is false as stated: a HEARTBEAT broadcast with `p_drop = 1` and
`can_communicate = true` records every send event with `dropped = false`
and consumes no uniform draw, although the Bernoulli trial
(`should_drop_outgoing`) would return true at this state. -/
theorem c4_drop_flag_cex :
    (dropBroadcastState.maybe_send_heartbeat 0).sends.map (fun a => a.dropped)
        = [false, false]
    ∧ (dropBroadcastState.should_drop_outgoing).1 = true
    ∧ (dropBroadcastState.maybe_send_heartbeat 0).uniDraws = [1, 1, 1]
    ∧ dropBroadcastState.can_communicate = true := by
  refine ⟨rfl, ?_, rfl, rfl⟩
  decide

/-! ### Every handled ELECTION yields exactly one OK reply (claim C3) -/

/-- The transport effect of the ELECTION handler: exactly one OK send back
to the ELECTION's sender, stamped with the current tick. -/
theorem handle_election_effects (s : NodeState) (t : Int) (m : Message)
    (hty : m.type = MsgType.ELECTION) :
    (s.handle_message m t).sends
        = s.sends ++ [⟨⟨MsgType.OK, t, s.uid, m.src_uid, s.leader_uid, 0⟩, m.src_uid,
            (s.should_drop_outgoing).1 || !s.can_communicate⟩]
    ∧ (s.handle_message m t).msg_buffer
        = s.msg_buffer.log_send t ⟨MsgType.OK, t, s.uid, m.src_uid, s.leader_uid, 0⟩
            m.src_uid ((s.should_drop_outgoing).1 || !s.can_communicate) := by
  rcases m with ⟨ty, tk, su, du, lu, ax⟩
  obtain rfl : ty = MsgType.ELECTION := hty
  simp only [NodeState.handle_message]
  constructor
  · split
    · rw [debug_print_sends]
      show (s.election_ok_reply su t).sends = _
      exact (election_ok_reply_effects s su t).2.1
    · exact (election_ok_reply_effects s su t).2.1
  · split
    · rw [debug_print_msg_buffer]
      show (s.election_ok_reply su t).msg_buffer = _
      exact (election_ok_reply_effects s su t).2.2
    · exact (election_ok_reply_effects s su t).2.2

/-- C3 (amended): an ELECTION drained while the receiver can communicate is
logged as received and answered by exactly one OK send event, addressed to
the ELECTION's sender and stamped with the same tick (its dropped flag may
be true). -/
theorem c3_ok_reply_amended :
    ∀ (s : NodeState) (t : Int) (m : Message),
      s.can_communicate = true → m.type = MsgType.ELECTION →
      ∃ d : Bool,
        (s.drainStep t m).sends
            = s.sends ++ [⟨⟨MsgType.OK, t, s.uid, m.src_uid, s.leader_uid, 0⟩,
                m.src_uid, d⟩]
        ∧ (s.drainStep t m).msg_buffer
            = (s.msg_buffer.log_recv t m).log_send t
                ⟨MsgType.OK, t, s.uid, m.src_uid, s.leader_uid, 0⟩ m.src_uid d := by
  intro s t m hcc hty
  unfold NodeState.drainStep
  dsimp only
  rw [if_pos (show ({ s with msg_buffer := s.msg_buffer.log_recv t m }
    : NodeState).can_communicate = true from hcc)]
  exact ⟨_, (handle_election_effects _ t m hty).1, (handle_election_effects _ t m hty).2⟩

/-- C3 is false as stated: an ELECTION received while `can_communicate` is
false is logged as received but produces no OK event at all. -/
theorem c3_ok_reply_cex :
    offlineGateState.can_communicate = false
    ∧ (offlineGateState.drain_incoming 7 [⟨MsgType.ELECTION, 7, 1, 3, 5, 0⟩]).sends = []
    ∧ (offlineGateState.drain_incoming 7 [⟨MsgType.ELECTION, 7, 1, 3, 5, 0⟩]).msg_buffer.events
        = [⟨7, MsgType.ELECTION, 1, 3, false, true⟩] := by
  refine ⟨rfl, ?_, ?_⟩ <;> decide

theorem c3_ok_reply_amended_witness :
    ∃ d : Bool,
      (baseState.drainStep 4 ⟨MsgType.ELECTION, 4, 1, 3, 2, 0⟩).sends
          = baseState.sends ++ [⟨⟨MsgType.OK, 4, baseState.uid, 1, baseState.leader_uid, 0⟩, 1, d⟩]
      ∧ (baseState.drainStep 4 ⟨MsgType.ELECTION, 4, 1, 3, 2, 0⟩).msg_buffer
          = (baseState.msg_buffer.log_recv 4 ⟨MsgType.ELECTION, 4, 1, 3, 2, 0⟩).log_send 4
              ⟨MsgType.OK, 4, baseState.uid, 1, baseState.leader_uid, 0⟩ 1 d :=
  c3_ok_reply_amended baseState 4 ⟨MsgType.ELECTION, 4, 1, 3, 2, 0⟩ rfl rfl

/-! ### The Network failure model tick (claim C7) -/

/-- C7 (amended): on a tick advance with a positive residual counter, the
counter is decremented with no RNG consumption and the peer is offline for
the tick exactly when the decremented counter is still positive (a counter
of one therefore brings the peer back online on this very tick); with a
zero counter, a uniform draw `u` triggers failure iff `u` is strictly below
`p_fail`, scaled by `leader_fail_multiplier` when the peer believes itself
leader, and on failure an index drawn from the categorical over
`offline_weights` selects the stored duration from `offline_durations`. -/
theorem c7_network_failure_amended :
    ∀ (f : NetworkFailureState),
      (0 < f.offline_remaining →
        f.tick = { f with offline_remaining := f.offline_remaining - 1 }
        ∧ ((f.tick).can_communicate = true ↔ f.offline_remaining = 1))
      ∧ (∀ (u : Rat) (rest : List Rat) (idx : Nat) (irest : List Nat),
          f.offline_remaining = 0 → f.uniDraws = u :: rest → f.idxDraws = idx :: irest →
          (u < f.effective_p →
            f.tick = { f with
                       uniDraws := rest
                       idxDraws := irest
                       offline_remaining := f.cfg.offline_durations.getD idx 0 })
          ∧ (¬ u < f.effective_p → f.tick = { f with uniDraws := rest }))
      ∧ (f.can_communicate = true ↔ f.offline_remaining = 0)
      ∧ (∀ b : Bool, (f.set_is_leader b).effective_p
            = if b = true then f.cfg.p_fail * f.cfg.leader_fail_multiplier
              else f.cfg.p_fail) := by
  intro f
  refine ⟨?_, ?_, ?_, ?_⟩
  · intro hpos
    have htick : f.tick = { f with offline_remaining := f.offline_remaining - 1 } := by
      unfold NetworkFailureState.tick
      rw [if_pos hpos]
    refine ⟨htick, ?_⟩
    rw [htick]
    unfold NetworkFailureState.can_communicate
    constructor
    · intro h
      have h2 : f.offline_remaining - 1 = 0 := by
        simpa using h
      omega
    · intro h
      simp [h]
  · intro u rest idx irest hz hu hi
    constructor
    · intro hlt
      unfold NetworkFailureState.tick
      rw [if_neg (by omega), hu, hi]
      simp only [List.headD_cons, List.tail_cons]
      rw [if_pos hlt]
    · intro hge
      unfold NetworkFailureState.tick
      rw [if_neg (by omega), hu]
      simp only [List.headD_cons, List.tail_cons]
      rw [if_neg hge]
  · unfold NetworkFailureState.can_communicate
    simp
  · intro b
    cases b <;> simp [NetworkFailureState.set_is_leader, NetworkFailureState.effective_p]

/-- C7 is false as stated: with a residual counter of one, the tick advance
decrements the counter and the peer can communicate again on this very tick
(the claim asserts it stays offline). -/
theorem c7_network_failure_cex :
    0 < nfOffline1.offline_remaining
    ∧ (nfOffline1.tick).can_communicate = true := by
  refine ⟨by decide, by decide⟩

theorem c7_network_failure_amended_witness :
    (nfOffline2.tick = { nfOffline2 with offline_remaining := 1 }
      ∧ ((nfOffline2.tick).can_communicate = true ↔ nfOffline2.offline_remaining = 1))
    ∧ nfIdleDraw.tick = { nfIdleDraw with
        uniDraws := [1]
        idxDraws := [0]
        offline_remaining := nfIdleDraw.cfg.offline_durations.getD 2 0 }
    ∧ (nfIdleDraw.can_communicate = true ↔ nfIdleDraw.offline_remaining = 0)
    ∧ ((nfIdleDraw.set_is_leader true).effective_p
        = if (true : Bool) = true then nfIdleDraw.cfg.p_fail * nfIdleDraw.cfg.leader_fail_multiplier
          else nfIdleDraw.cfg.p_fail) :=
  ⟨(c7_network_failure_amended nfOffline2).1 (by decide),
   ((c7_network_failure_amended nfIdleDraw).2.1 0 [1] 2 [0] rfl rfl rfl).1 (by decide),
   (c7_network_failure_amended nfIdleDraw).2.2.1,
   (c7_network_failure_amended nfIdleDraw).2.2.2 true⟩

/-! ### Field projections and Phase SEND core preservation -/

theorem debug_print_waiting (s : NodeState) (t : Int) (msg : String) :
    (s.debug_print t msg).waiting_for_coordinator = s.waiting_for_coordinator := rfl

theorem debug_print_active (s : NodeState) (t : Int) (msg : String) :
    (s.debug_print t msg).election_active = s.election_active := rfl

theorem debug_print_started (s : NodeState) (t : Int) (msg : String) :
    (s.debug_print t msg).election_started = s.election_started := rfl

theorem debug_print_uid (s : NodeState) (t : Int) (msg : String) :
    (s.debug_print t msg).uid = s.uid := rfl

theorem debug_print_leader (s : NodeState) (t : Int) (msg : String) :
    (s.debug_print t msg).leader_uid = s.leader_uid := rfl

theorem broadcast_waiting (s : NodeState) (m : Message) :
    (s.broadcast_to_nodes m).waiting_for_coordinator = s.waiting_for_coordinator :=
  core_eq_waiting (broadcast_to_nodes_core s m)

theorem broadcast_active (s : NodeState) (m : Message) :
    (s.broadcast_to_nodes m).election_active = s.election_active :=
  core_eq_active (broadcast_to_nodes_core s m)

theorem broadcast_leader (s : NodeState) (m : Message) :
    (s.broadcast_to_nodes m).leader_uid = s.leader_uid :=
  core_eq_leader (broadcast_to_nodes_core s m)

theorem election_ok_reply_uid (s : NodeState) (src t : Int) :
    (s.election_ok_reply src t).uid = s.uid :=
  core_eq_uid (election_ok_reply_effects s src t).1

theorem election_ok_reply_waiting (s : NodeState) (src t : Int) :
    (s.election_ok_reply src t).waiting_for_coordinator = s.waiting_for_coordinator :=
  core_eq_waiting (election_ok_reply_effects s src t).1

theorem election_ok_reply_active (s : NodeState) (src t : Int) :
    (s.election_ok_reply src t).election_active = s.election_active :=
  core_eq_active (election_ok_reply_effects s src t).1

theorem ping_ack_reply_waiting (s : NodeState) (src aux t : Int) :
    (s.ping_ack_reply src aux t).waiting_for_coordinator = s.waiting_for_coordinator :=
  core_eq_waiting (ping_ack_reply_effects s src aux t).1

theorem ping_ack_reply_active (s : NodeState) (src aux t : Int) :
    (s.ping_ack_reply src aux t).election_active = s.election_active :=
  core_eq_active (ping_ack_reply_effects s src aux t).1

theorem popUni_core (s : NodeState) : (s.popUni).2.core = s.core := rfl

theorem maybe_send_heartbeat_core (s : NodeState) (t : Int) :
    (s.maybe_send_heartbeat t).core = s.core := by
  unfold NodeState.maybe_send_heartbeat
  dsimp only
  split
  · rfl
  · split
    · rfl
    · split
      · rfl
      · simp [broadcast_to_nodes_core, debug_print_core]

theorem startElectionStep_core (m : Message) (t : Int) (acc : NodeState × Bool) (r : Int) :
    ((startElectionStep m t acc r).1).core = acc.1.core := by
  unfold startElectionStep
  dsimp only
  split
  · split <;> simp [debug_print_core, send_message_core, should_drop_core]
  · rfl

theorem foldl_startElection_core (m : Message) (t : Int) :
    ∀ (l : List Int) (acc : NodeState × Bool),
      ((l.foldl (startElectionStep m t) acc).1).core = acc.1.core := by
  intro l
  induction l with
  | nil => intro acc; rfl
  | cons r l ih =>
    intro acc
    simp only [List.foldl_cons]
    exact (ih _).trans (startElectionStep_core m t acc r)

theorem start_election_core (s : NodeState) (t : Int) :
    (s.start_election t).core =
      { s.core with election_started := true, election_start_tick := t } := by
  unfold NodeState.start_election
  dsimp only
  split
  · rw [debug_print_core, foldl_startElection_core]
    rfl
  · rw [foldl_startElection_core]
    rfl

theorem set_next_msg_core (x : NodeState) (n : Int) :
    ({ x with next_msg_id := n } : NodeState).core = x.core := rfl

theorem set_pings_core (x : NodeState) (n : Int) :
    ({ x with pings_sent := n } : NodeState).core = x.core := rfl

theorem random_peer_rank_core (x : NodeState) :
    (x.random_peer_rank).2.core = x.core := rfl

theorem maybe_send_random_ping_core (s : NodeState) (t : Int) :
    (s.maybe_send_random_ping t).core = s.core := by
  unfold NodeState.maybe_send_random_ping
  dsimp only
  split
  · rfl
  · split
    · rfl
    · split
      · simp [debug_print_core, set_pings_core, send_message_core, should_drop_core,
          set_next_msg_core, random_peer_rank_core, popUni_core]
      · simp [debug_print_core, set_pings_core, send_message_core, should_drop_core,
          set_next_msg_core, random_peer_rank_core, popUni_core]

theorem tick_send_protocol_fields (s : NodeState) (t : Int) :
    (s.tick_send t).waiting_for_coordinator = s.waiting_for_coordinator
    ∧ (s.tick_send t).election_active = s.election_active := by
  unfold NodeState.tick_send
  dsimp only
  split
  · have h3 := maybe_send_random_ping_core ((s.maybe_send_heartbeat t).start_election t) t
    have h2 := start_election_core (s.maybe_send_heartbeat t) t
    have h1 := maybe_send_heartbeat_core s t
    constructor
    · rw [core_eq_waiting h3]
      have hmid : ((s.maybe_send_heartbeat t).start_election t).waiting_for_coordinator
          = (s.maybe_send_heartbeat t).waiting_for_coordinator :=
        congrArg CoreState.waiting_for_coordinator h2
      rw [hmid, core_eq_waiting h1]
    · rw [core_eq_active h3]
      have hmid : ((s.maybe_send_heartbeat t).start_election t).election_active
          = (s.maybe_send_heartbeat t).election_active :=
        congrArg CoreState.election_active h2
      rw [hmid, core_eq_active h1]
  · have h3 := maybe_send_random_ping_core (s.maybe_send_heartbeat t) t
    have h1 := maybe_send_heartbeat_core s t
    exact ⟨(core_eq_waiting h3).trans (core_eq_waiting h1),
      (core_eq_active h3).trans (core_eq_active h1)⟩

/-! ### The waiting / election-active exclusion (claim C1) -/

theorem hb_timeout_step_wait_excl (s : NodeState) (t : Int)
    (hw : s.wait_excludes_active = true) :
    (s.hb_timeout_step t).wait_excludes_active = true := by
  unfold NodeState.hb_timeout_step
  split
  · rename_i hg
    have hgp := hg
    simp only [NodeState.hb_timeout_guard, Bool.and_eq_true, Bool.not_eq_true',
      decide_eq_true_eq] at hgp
    have hwf : s.waiting_for_coordinator = false := hgp.1.1.2
    simp [NodeState.wait_excludes_active, NodeState.debug_print, hwf]
  · exact hw

theorem coord_wait_step_wait_excl (s : NodeState) (t : Int)
    (hw : s.wait_excludes_active = true) :
    (s.coord_wait_step t).wait_excludes_active = true := by
  unfold NodeState.coord_wait_step
  split
  · simp [NodeState.wait_excludes_active, NodeState.debug_print]
  · exact hw

theorem victory_step_wait_excl (s : NodeState) (t : Int)
    (hw : s.wait_excludes_active = true) :
    (s.victory_step t).wait_excludes_active = true := by
  unfold NodeState.victory_step
  dsimp only
  split
  · simp [NodeState.wait_excludes_active, debug_print_active, broadcast_active,
      debug_print_waiting, broadcast_waiting, NodeState.debug_print]
  · exact hw

theorem tick_end_wait_excl (s : NodeState) (t : Int)
    (hw : s.wait_excludes_active = true) :
    (s.tick_end t).wait_excludes_active = true :=
  victory_step_wait_excl _ t (coord_wait_step_wait_excl _ t
    (hb_timeout_step_wait_excl s t hw))

theorem tick_send_wait_excl (s : NodeState) (t : Int)
    (hw : s.wait_excludes_active = true) :
    (s.tick_send t).wait_excludes_active = true := by
  unfold NodeState.wait_excludes_active at hw ⊢
  rw [(tick_send_protocol_fields s t).1, (tick_send_protocol_fields s t).2]
  exact hw

theorem handle_message_wait_excl (s : NodeState) (m : Message) (t : Int)
    (hw : s.wait_excludes_active = true)
    (hel : m.type = MsgType.ELECTION → s.uid ≤ m.src_uid) :
    (s.handle_message m t).wait_excludes_active = true := by
  rcases m with ⟨ty, tk, su, du, lu, ax⟩
  cases ty
  case HEARTBEAT =>
    simp only [NodeState.handle_message]
    split
    · simp [NodeState.wait_excludes_active, NodeState.debug_print]
    · exact hw
  case ELECTION =>
    have hle : s.uid ≤ su := hel rfl
    simp only [NodeState.handle_message]
    split
    · rename_i hc
      rw [election_ok_reply_uid] at hc
      exact absurd hc.1 (not_lt.2 hle)
    · unfold NodeState.wait_excludes_active
      rw [election_ok_reply_waiting, election_ok_reply_active]
      exact hw
  case OK =>
    simp only [NodeState.handle_message]
    split
    · simp [NodeState.wait_excludes_active, NodeState.debug_print]
    · exact hw
  case COORDINATOR =>
    simp only [NodeState.handle_message]
    split
    · simp [NodeState.wait_excludes_active, NodeState.debug_print]
    · split
      · rename_i hg
        simp only [Bool.and_eq_true, Bool.not_eq_true', debug_print_active,
          debug_print_waiting] at hg
        simp [NodeState.wait_excludes_active, NodeState.debug_print, hg.2]
      · exact hw
  case PING =>
    show (s.ping_ack_reply su ax t).wait_excludes_active = true
    unfold NodeState.wait_excludes_active
    rw [ping_ack_reply_waiting, ping_ack_reply_active]
    exact hw
  case ACK => exact hw
  case STATE_REPORT => exact hw

theorem handle_ok_entry (s : NodeState) (m : Message) (t : Int)
    (hty : m.type = MsgType.OK) (hlt : s.uid < m.src_uid) :
    (s.handle_message m t).election_active = false
    ∧ (s.handle_message m t).election_started = false
    ∧ (s.handle_message m t).waiting_for_coordinator = true := by
  rcases m with ⟨ty, tk, su, du, lu, ax⟩
  obtain rfl : ty = MsgType.OK := hty
  simp only [NodeState.handle_message]
  rw [if_pos hlt]
  exact ⟨rfl, rfl, rfl⟩

theorem handle_election_lower_while_waiting (s : NodeState) (m : Message) (t : Int)
    (hwt : s.waiting_for_coordinator = true) (hac : s.election_active = false)
    (hty : m.type = MsgType.ELECTION) (hlt : m.src_uid < s.uid) :
    (s.handle_message m t).waiting_for_coordinator = true
    ∧ (s.handle_message m t).election_active = true := by
  rcases m with ⟨ty, tk, su, du, lu, ax⟩
  obtain rfl : ty = MsgType.ELECTION := hty
  simp only [NodeState.handle_message]
  have h1 : su < (s.election_ok_reply su t).uid := by
    rw [election_ok_reply_uid]
    exact hlt
  have h2 : (!(s.election_ok_reply su t).election_active) = true := by
    rw [Bool.not_eq_true', election_ok_reply_active]
    exact hac
  rw [if_pos ⟨h1, h2⟩]
  constructor
  · show (s.election_ok_reply su t).waiting_for_coordinator = true
    rw [election_ok_reply_waiting]
    exact hwt
  · rfl

/-- C1 (amended): entry into the waiting state (accepting an OK from a
higher UID) clears `election_active` and `election_started` and sets
`waiting_for_coordinator`; the implication `waiting_for_coordinator implies
not election_active` is preserved by Phase SEND, by Phase END and by
handling every message except an ELECTION from a strictly lower UID; an
ELECTION from a lower-UID sender handled while waiting with no active
election turns `election_active` on while `waiting_for_coordinator` stays
true, violating the implication. -/
theorem c1_wait_excl_amended :
    (∀ (s : NodeState) (m : Message) (t : Int),
        m.type = MsgType.OK → s.uid < m.src_uid →
        (s.handle_message m t).election_active = false
        ∧ (s.handle_message m t).election_started = false
        ∧ (s.handle_message m t).waiting_for_coordinator = true)
    ∧ (∀ (s : NodeState) (m : Message) (t : Int),
        s.wait_excludes_active = true →
        (m.type = MsgType.ELECTION → s.uid ≤ m.src_uid) →
        (s.handle_message m t).wait_excludes_active = true)
    ∧ (∀ (s : NodeState) (t : Int),
        s.wait_excludes_active = true →
        (s.tick_send t).wait_excludes_active = true
        ∧ (s.tick_end t).wait_excludes_active = true)
    ∧ (∀ (s : NodeState) (m : Message) (t : Int),
        s.waiting_for_coordinator = true → s.election_active = false →
        m.type = MsgType.ELECTION → m.src_uid < s.uid →
        (s.handle_message m t).waiting_for_coordinator = true
        ∧ (s.handle_message m t).election_active = true) :=
  ⟨handle_ok_entry,
   handle_message_wait_excl,
   fun s t hw => ⟨tick_send_wait_excl s t hw, tick_end_wait_excl s t hw⟩,
   handle_election_lower_while_waiting⟩

/-- C1 is false as stated: from the reachable situation "waiting for
COORDINATOR, no active election", handling an ELECTION from a lower-UID
sender leaves `waiting_for_coordinator` true while setting
`election_active` true, so `waiting_for_coordinator implies not
election_active` does not survive message handling. -/
theorem c1_wait_invariant_cex :
    waitingState.waiting_for_coordinator = true
    ∧ waitingState.election_active = false
    ∧ (waitingState.handle_message ⟨MsgType.ELECTION, 5, 2, 3, 5, 0⟩ 5).waiting_for_coordinator = true
    ∧ (waitingState.handle_message ⟨MsgType.ELECTION, 5, 2, 3, 5, 0⟩ 5).election_active = true := by
  refine ⟨rfl, rfl, ?_, ?_⟩ <;> decide

theorem c1_wait_excl_amended_witness :
    ((waitingState.handle_message ⟨MsgType.OK, 5, 4, 3, 5, 0⟩ 5).election_active = false
      ∧ (waitingState.handle_message ⟨MsgType.OK, 5, 4, 3, 5, 0⟩ 5).election_started = false
      ∧ (waitingState.handle_message ⟨MsgType.OK, 5, 4, 3, 5, 0⟩ 5).waiting_for_coordinator = true)
    ∧ (waitingState.handle_message ⟨MsgType.HEARTBEAT, 5, 4, 3, 4, 0⟩ 5).wait_excludes_active = true
    ∧ ((waitingState.tick_send 6).wait_excludes_active = true
        ∧ (waitingState.tick_end 6).wait_excludes_active = true)
    ∧ ((waitingState.handle_message ⟨MsgType.ELECTION, 5, 2, 3, 5, 0⟩ 5).waiting_for_coordinator = true
        ∧ (waitingState.handle_message ⟨MsgType.ELECTION, 5, 2, 3, 5, 0⟩ 5).election_active = true) :=
  ⟨c1_wait_excl_amended.1 waitingState ⟨MsgType.OK, 5, 4, 3, 5, 0⟩ 5 rfl (by decide),
   c1_wait_excl_amended.2.1 waitingState ⟨MsgType.HEARTBEAT, 5, 4, 3, 4, 0⟩ 5 (by decide) (by decide),
   c1_wait_excl_amended.2.2.1 waitingState 6 (by decide),
   c1_wait_excl_amended.2.2.2 waitingState ⟨MsgType.ELECTION, 5, 2, 3, 5, 0⟩ 5 rfl rfl rfl (by decide)⟩

/-! ### The highest-UID node's election (claim C2) -/

theorem mem_nodeRanks (n r : Int) (h : r ∈ nodeRanks n) : 1 ≤ r ∧ r ≤ n := by
  unfold nodeRanks at h
  simp only [List.mem_map, List.mem_range] at h
  obtain ⟨i, hi, rfl⟩ := h
  omega

theorem foldl_startElection_skip (m : Message) (t : Int) :
    ∀ (l : List Int) (acc : NodeState × Bool),
      (∀ r ∈ l, ¬(acc.1.uid < r)) →
      l.foldl (startElectionStep m t) acc = acc := by
  intro l
  induction l with
  | nil => intro acc _; rfl
  | cons r l ih =>
    intro acc h
    simp only [List.foldl_cons]
    have hstep : startElectionStep m t acc r = acc := by
      unfold startElectionStep
      dsimp only
      rw [if_neg (h r (List.mem_cons_self r l))]
    rw [hstep]
    exact ih acc (fun x hx => h x (List.mem_cons_of_mem r hx))

theorem start_election_top_sends (s : NodeState) (t : Int)
    (hun : s.uid = s.num_nodes) :
    (s.start_election t).sends = s.sends ∧ (s.start_election t).wire = s.wire := by
  unfold NodeState.start_election
  dsimp only
  rw [foldl_startElection_skip _ t (nodeRanks s.num_nodes) _ ?hskip]
  case hskip =>
    intro r hr
    have hb := mem_nodeRanks s.num_nodes r hr
    dsimp only
    omega
  simp [hun, debug_print_sends, debug_print_wire, NodeState.debug_print]

theorem tick_end_victory (s : NodeState) (t : Int)
    (hac : s.election_active = true) (hst : s.election_started = true)
    (hwt : s.waiting_for_coordinator = false)
    (htm : s.cfg.election_timeout_ticks < t - s.election_start_tick) :
    (s.tick_end t).leader_uid = s.uid
    ∧ (s.tick_end t).election_active = false
    ∧ (s.tick_end t).sends = s.sends ++
        ((nodeRanks s.num_nodes).filter (notRank s.rank)).map
          (fun r => ⟨⟨MsgType.COORDINATOR, t, s.uid, -1, s.uid, 0⟩, r,
            !s.can_communicate⟩) := by
  have h1 : s.hb_timeout_step t = s := by
    simp [NodeState.hb_timeout_step, NodeState.hb_timeout_guard, hac]
  have h2 : s.coord_wait_step t = s := by
    simp [NodeState.coord_wait_step, NodeState.coord_wait_guard, hwt]
  have hg : s.victory_guard t = true := by
    simp [NodeState.victory_guard, hac, hst]
    omega
  unfold NodeState.tick_end
  rw [h1, h2]
  unfold NodeState.victory_step
  rw [if_pos hg]
  refine ⟨?_, ?_, ?_⟩
  · simp [debug_print_leader, broadcast_leader, NodeState.debug_print]
  · simp [debug_print_active, broadcast_active, NodeState.debug_print]
  · simp [debug_print_sends, broadcast_to_nodes_sends, NodeState.debug_print]

/-- C2 (amended): the highest-UID peer's `start_election` emits no ELECTION
message (and puts nothing on the wire), but the peer does not become leader
in that same tick; like every initiator it declares victory only in Phase
END of the first tick with `tick - election_start_tick >
election_timeout_ticks`, setting `leader_uid := uid`, clearing
`election_active` and broadcasting COORDINATOR to every other node. -/
theorem c2_highest_uid_amended :
    (∀ (s : NodeState) (t : Int), s.uid = s.num_nodes →
        (s.start_election t).sends = s.sends ∧ (s.start_election t).wire = s.wire)
    ∧ (∀ (s : NodeState) (t : Int),
        s.election_active = true → s.election_started = true →
        s.waiting_for_coordinator = false →
        s.cfg.election_timeout_ticks < t - s.election_start_tick →
        (s.tick_end t).leader_uid = s.uid
        ∧ (s.tick_end t).election_active = false
        ∧ (s.tick_end t).sends = s.sends ++
            ((nodeRanks s.num_nodes).filter (notRank s.rank)).map
              (fun r => ⟨⟨MsgType.COORDINATOR, t, s.uid, -1, s.uid, 0⟩, r,
                !s.can_communicate⟩)) :=
  ⟨start_election_top_sends, tick_end_victory⟩

/-- C2 is false as stated: the highest-UID peer that enters a tick in
ELECTING (election_active, not yet started) is still in ELECTING after the
full tick — `election_active` remains true and no COORDINATOR was sent — so
it did not transition to LEADER in the tick in which it started its
election. -/
theorem c2_highest_uid_cex :
    electingTopState.uid = electingTopState.num_nodes
    ∧ electingTopState.election_active = true
    ∧ electingTopState.election_started = false
    ∧ (((electingTopState.tick_send 5).tick_recv 5 []).tick_end 5).election_active = true
    ∧ (((electingTopState.tick_send 5).tick_recv 5 []).tick_end 5).election_started = true
    ∧ ((((electingTopState.tick_send 5).tick_recv 5 []).tick_end 5).sends.filter
        (fun a => decide (a.msg.type = MsgType.COORDINATOR))).length = 0 := by
  decide

theorem c2_highest_uid_amended_witness :
    ((electingTopState.start_election 5).sends = electingTopState.sends
      ∧ (electingTopState.start_election 5).wire = electingTopState.wire)
    ∧ ((victoryDueState.tick_end 4).leader_uid = victoryDueState.uid
        ∧ (victoryDueState.tick_end 4).election_active = false
        ∧ (victoryDueState.tick_end 4).sends = victoryDueState.sends ++
            ((nodeRanks victoryDueState.num_nodes).filter (notRank victoryDueState.rank)).map
              (fun r => ⟨⟨MsgType.COORDINATOR, 4, victoryDueState.uid, -1,
                victoryDueState.uid, 0⟩, r, !victoryDueState.can_communicate⟩)) :=
  ⟨c2_highest_uid_amended.1 electingTopState 5 rfl,
   c2_highest_uid_amended.2 victoryDueState 4 rfl rfl rfl (by decide)⟩
